import Mathlib

/-!
Shallow embedding of the `english-ai-backend` repository (FastAPI + SQLAlchemy
backend in `main.py`, `crud.py`, `models.py`, `auth.py`, `schemas.py`) for
checking its natural-language specification.

Modelling conventions:
* The relational store is a record of lists, one per table; each row carries an
  auto-increment integer id (`length + 1` at insertion time), matching the
  primary-key behaviour of the source schema where rows are only ever appended.
* Values coming from the external AI service are untyped JSON, modelled by the
  `Json` inductive below; `json.loads` of the upstream text is modelled by an
  `Option Json` argument (`none` = `json.JSONDecodeError`).
* Python exceptions that a handler catches are modelled with `Except`; an
  HTTP-level failure is an `HTTPException` value (status code and detail).
* The external password-hashing and JWT libraries (passlib, jose) are outside
  the repository; they are modelled by their boundary contracts from spec §6:
  `hash/verify` round-trip, `encode/decode` with a shared secret round-trip.
-/

/-- Untyped JSON values as produced by `json.loads` on the upstream text. -/
inductive Json where
  | null : Json
  | bool : Bool → Json
  | num : Int → Json
  | str : String → Json
  | arr : List Json → Json
  | obj : List (String × Json) → Json
deriving Repr

mutual

/-- Structural equality of JSON values. -/
def Json.beq : Json → Json → Bool
  | Json.null, Json.null => true
  | Json.bool a, Json.bool b => a == b
  | Json.num a, Json.num b => a == b
  | Json.str a, Json.str b => a == b
  | Json.arr xs, Json.arr ys => Json.beqList xs ys
  | Json.obj xs, Json.obj ys => Json.beqObj xs ys
  | _, _ => false

/-- Pointwise equality of JSON arrays. -/
def Json.beqList : List Json → List Json → Bool
  | [], [] => true
  | x :: xs, y :: ys => Json.beq x y && Json.beqList xs ys
  | _, _ => false

/-- Pointwise equality of JSON object entry lists. -/
def Json.beqObj : List (String × Json) → List (String × Json) → Bool
  | [], [] => true
  | (k, v) :: xs, (l, w) :: ys => k == l && Json.beq v w && Json.beqObj xs ys
  | _, _ => false

end

instance : BEq Json := ⟨Json.beq⟩

/-- First-match lookup in a JSON object's key/value list (Python `dict` access;
insertion order with unique keys in practice, first match here). -/
def lookupKey : List (String × Json) → String → Option Json
  | [], _ => none
  | (k, v) :: rest, key => if k == key then some v else lookupKey rest key

/-- `j.get? k`: Python `j.get(k)` on a parsed JSON value, `none` when `j` is
not a dict or the key is absent. -/
def Json.get? : Json → String → Option Json
  | Json.obj kvs, k => lookupKey kvs k
  | _, _ => none

/-- Python `j.get(k, d)`: lookup with a default. -/
def Json.getD (j : Json) (k : String) (d : Json) : Json :=
  (Json.get? j k).getD d

/-- `isinstance(j, dict)`. -/
def Json.isDict : Json → Bool
  | Json.obj _ => true
  | _ => false

/-- Membership test in a list of JSON values (decidable equality). -/
def jsonMem (x : Json) : List Json → Bool
  | [] => false
  | y :: ys => (x == y) || jsonMem x ys

/-- Python `selected == value` where `selected` is a `str` and `value` an
arbitrary JSON value: equal only when the value is the same string
(case-sensitive); a `str` never equals a non-`str`. -/
def Json.eqStr : Json → String → Bool
  | Json.str t, s => t == s
  | _, _ => false

/-! ## Data model (`models.py`) -/

/-- Row of table `users` (`models.User`). -/
structure User where
  id : Nat
  email : String
  hashed_password : String
deriving Repr

/-- Row of table `lessons` (`models.Lesson`). The string columns hold whatever
value the pipeline passed (the AI data is untyped), so they are `Json` here. -/
structure Lesson where
  id : Nat
  title : Json
  level : Json
  topic : Json
  text_passage : Json
deriving Repr

/-- Row of table `vocabulary_items` (`models.VocabularyItem`). The
`translation` column is nullable and `crud.create_vocabulary_item` never sets
it, so rows created through the data-access layer carry `Json.null` there. -/
structure VocabularyItem where
  id : Nat
  lesson_id : Nat
  word : Json
  phonetic_guide : Json
  translation : Json
deriving Repr

/-- Row of table `questions` (`models.Question`, the unified model): `options`
is a JSON column, `lesson_id` and `question_type` are nullable. -/
structure Question where
  id : Nat
  question_text : Json
  options : List Json
  correct_option : Json
  lesson_id : Option Nat
  question_type : Option String
deriving Repr

/-- Row of table `user_answers` (`models.UserAnswer`). -/
structure UserAnswer where
  id : Nat
  user_id : Nat
  question_id : Nat
  selected_option : String
  is_correct : Bool
deriving Repr

/-- The relational store: one list per table, rows in insertion order. -/
structure DB where
  users : List User
  lessons : List Lesson
  vocabulary_items : List VocabularyItem
  questions : List Question
  user_answers : List UserAnswer
deriving Repr

/-- The empty database (fresh schema). -/
def emptyDB : DB := ⟨[], [], [], [], []⟩

/-! ## Data-access layer (`crud.py`) -/

/-- `crud.get_user_by_email`: first user row whose email matches. -/
def get_user_by_email (db : DB) (email : String) : Option User :=
  db.users.find? (fun u => u.email == email)

/-- `crud.create_lesson`: append a `Lesson` row, return it with its fresh id. -/
def create_lesson (db : DB) (title level topic text_passage : Json) :
    DB × Lesson :=
  let l : Lesson := ⟨db.lessons.length + 1, title, level, topic, text_passage⟩
  ({ db with lessons := db.lessons ++ [l] }, l)

/-- `crud.get_lesson`: first lesson row with the given id. -/
def get_lesson (db : DB) (lesson_id : Nat) : Option Lesson :=
  db.lessons.find? (fun l => l.id == lesson_id)

/-- `crud.create_vocabulary_item`: append a `VocabularyItem` row. Its
parameter list is `db, lesson_id, word, phonetic_guide` — it has NO
`translation` parameter, so the `translation` column keeps its default null. -/
def create_vocabulary_item (db : DB) (lesson_id : Nat)
    (word phonetic_guide : Json) : DB × VocabularyItem :=
  let v : VocabularyItem :=
    ⟨db.vocabulary_items.length + 1, lesson_id, word, phonetic_guide, Json.null⟩
  ({ db with vocabulary_items := db.vocabulary_items ++ [v] }, v)

/-- `crud.create_question`: append a `Question` row. -/
def create_question (db : DB) (question_text : Json) (options : List Json)
    (correct_option : Json) (lesson_id : Option Nat)
    (question_type : Option String) : DB × Question :=
  let q : Question :=
    ⟨db.questions.length + 1, question_text, options, correct_option,
      lesson_id, question_type⟩
  ({ db with questions := db.questions ++ [q] }, q)

/-- `crud.get_question`: first question row with the given id. -/
def get_question (db : DB) (question_id : Nat) : Option Question :=
  db.questions.find? (fun q => q.id == question_id)

/-- `crud.create_user_answer`: append a `UserAnswer` row with the `is_correct`
value the caller computed; the stored value is exactly the argument. -/
def create_user_answer (db : DB) (user_id question_id : Nat)
    (selected_option : String) (is_correct : Bool) : DB × UserAnswer :=
  let a : UserAnswer :=
    ⟨db.user_answers.length + 1, user_id, question_id, selected_option,
      is_correct⟩
  ({ db with user_answers := db.user_answers ++ [a] }, a)

/-- Related `vocabulary_items` rows of a lesson (the ORM relationship on
`Lesson.vocabulary_items`), in insertion order. -/
def lesson_vocabulary_items (db : DB) (lesson_id : Nat) :
    List VocabularyItem :=
  db.vocabulary_items.filter (fun v => v.lesson_id == lesson_id)

/-- Related `questions` rows of a lesson (the ORM relationship on
`Lesson.questions`), in insertion order. -/
def lesson_questions (db : DB) (lesson_id : Nat) : List Question :=
  db.questions.filter (fun q => q.lesson_id == some lesson_id)

/-! ## HTTP error values -/

/-- A FastAPI `HTTPException`: status code and detail string. -/
structure HTTPException where
  status_code : Nat
  detail : String
deriving Repr, DecidableEq

/-! ## Authentication layer (`auth.py`)

`passlib` and `jose` are external libraries (spec §1 delegates them); they are
modelled by the boundary contracts of spec §6: `hash(plain) -> hash`,
`verify(plain, hash) -> bool`, and a token that carries its claims and the key
it was signed with, decodable exactly under the same key. -/

/-- Model of the external bcrypt hash (spec §6 `hash(plain) -> hash`): an
injective tagging of the plain password. -/
def hash_password (password : String) : String :=
  String.append "bcrypt$" password

/-- `auth.verify_password` over the modelled hash (spec §6
`verify(plain, hash) -> bool`). -/
def verify_password (plain_password hashed_password : String) : Bool :=
  hashed_password == hash_password plain_password

/-- The `SECRET_KEY` environment value `auth.py` signs and verifies with (a
fixed opaque string in the model). -/
def SECRET_KEY : String := "model-secret-key"

/-- `auth.ACCESS_TOKEN_EXPIRE_MINUTES`. -/
def ACCESS_TOKEN_EXPIRE_MINUTES : Nat := 30

/-- Model of a signed JWT: the claim list and the signing key. -/
structure JwtToken where
  payload : List (String × Json)
  key : String
deriving Repr

/-- Model of `jose.jwt.encode`. -/
def jwt_encode (payload : List (String × Json)) (key : String) : JwtToken :=
  ⟨payload, key⟩

/-- Model of `jose.jwt.decode`: yields the claims exactly when the key
matches the signing key, else fails (`JWTError`). -/
def jwt_decode (t : JwtToken) (key : String) : Option (List (String × Json)) :=
  if t.key == key then some t.payload else none

/-- `auth.create_access_token`: copy the data claims, add an `exp` claim
(current time plus the configured lifetime, seconds), sign with SECRET_KEY. -/
def create_access_token (data : List (String × Json)) (now : Nat) : JwtToken :=
  jwt_encode
    (data ++ [("exp", Json.num (Int.ofNat (now + ACCESS_TOKEN_EXPIRE_MINUTES * 60)))])
    SECRET_KEY

/-- The subject extraction step of `auth.get_current_user`:
`jwt.decode(token, SECRET_KEY)` then `payload.get("sub")`; `none` when the
signature does not verify or the claim is absent. -/
def decode_token_sub (t : JwtToken) : Option Json :=
  match jwt_decode t SECRET_KEY with
  | none => none
  | some payload => lookupKey payload "sub"

/-! ## Authentication endpoints (`main.py`) -/

/-- `crud.create_user`: hash the password, append a `users` row. -/
def create_user (db : DB) (email password : String) : DB × User :=
  let u : User := ⟨db.users.length + 1, email, hash_password password⟩
  ({ db with users := db.users ++ [u] }, u)

/-- `POST /register` (`main.register_user`): 400 when the email is already
registered, else create and return the user. -/
def register_user (db : DB) (email password : String) :
    DB × Except HTTPException User :=
  match get_user_by_email db email with
  | some _ => (db, Except.error ⟨400, "Email already registered"⟩)
  | none =>
    let p := create_user db email password
    (p.1, Except.ok p.2)

/-- `POST /token` (`main.login_for_access_token`): look the user up by email,
verify the password, and issue a token whose `sub` claim is the user's
email; 401 otherwise. -/
def login_for_access_token (db : DB) (username password : String) (now : Nat) :
    Except HTTPException JwtToken :=
  match get_user_by_email db username with
  | none => Except.error ⟨401, "Incorrect email or password"⟩
  | some user =>
    if verify_password password user.hashed_password then
      Except.ok (create_access_token [("sub", Json.str user.email)] now)
    else
      Except.error ⟨401, "Incorrect email or password"⟩

/-! ## Quiz submission (`main.submit_answers`) -/

/-- One element of `QuizSubmission.answers` (`schemas.AnswerSubmission`). -/
structure AnswerSubmission where
  question_id : Nat
  selected_option : String
deriving Repr

/-- `schemas.QuizResult`. -/
structure QuizResult where
  score : Nat
  total_questions : Nat
deriving Repr, DecidableEq

/-- The per-answer loop of `main.submit_answers`: for each answer, look the
question up; when absent, skip it entirely; else compute `is_correct` as the
(case-sensitive) equality of `selected_option` with the stored
`correct_option`, persist a `UserAnswer` row, and tally. Returns the final
database, the correct count, and the processed count. -/
def submitLoop (u : Nat) (db : DB) : List AnswerSubmission → DB × Nat × Nat
  | [] => (db, 0, 0)
  | a :: rest =>
    match get_question db a.question_id with
    | none => submitLoop u db rest
    | some q =>
      let ic := Json.eqStr q.correct_option a.selected_option
      let p := create_user_answer db u a.question_id a.selected_option ic
      let r := submitLoop u p.1 rest
      (r.1, (if ic then r.2.1 + 1 else r.2.1), r.2.2 + 1)

/-- `POST /submit-answers` (`main.submit_answers`): empty submissions return
`{score: 0, total_questions: 0}` at once; else run the loop and return
`{score: correct_count, total_questions: processed_questions}`. -/
def submit_answers (db : DB) (user_id : Nat)
    (answers : List AnswerSubmission) : DB × QuizResult :=
  if answers.length == 0 then (db, ⟨0, 0⟩)
  else
    let r := submitLoop user_id db answers
    (r.1, ⟨r.2.1, r.2.2⟩)

/-! ## Lesson generation pipeline (`main.create_ai_lesson`)

The stages after the external AI call. `json.loads` of the fence-stripped
upstream text is modelled by the `Option Json` argument: `none` is the
`json.JSONDecodeError` case, `some j` the parsed value. -/

/-- `schemas.LessonResponse`: the serialized lesson with its related rows. -/
structure LessonResponse where
  id : Nat
  title : Json
  level : Json
  topic : Json
  text_passage : Json
  vocabulary_items : List VocabularyItem
  questions : List Question
deriving Repr

/-- Serialization of an ORM `Lesson` row through `schemas.LessonResponse`:
the scalar columns plus the two relationship collections. -/
def lessonResponse (db : DB) (l : Lesson) : LessonResponse :=
  ⟨l.id, l.title, l.level, l.topic, l.text_passage,
    lesson_vocabulary_items db l.id, lesson_questions db l.id⟩

/-- The required top-level keys checked at main.py line 126. -/
def required_keys : List String :=
  ["title", "level", "topic", "text_passage", "vocabulary_items",
    "comprehension_questions"]

/-- The shape check at main.py line 127: the parsed value is a dict holding
every required key (else `ValueError`). -/
def shapeOk (j : Json) : Bool :=
  j.isDict && required_keys.all (fun k => (Json.get? j k).isSome)

/-- Parameter names of `crud.create_vocabulary_item` as declared in crud.py
(`db, lesson_id, word, phonetic_guide` — and no others). -/
def create_vocabulary_item_params : List String :=
  ["db", "lesson_id", "word", "phonetic_guide"]

/-- Keyword-argument names the call site at main.py lines 144-148 passes to
`crud.create_vocabulary_item` (including `translation`). -/
def pipeline_vocab_kwargs : List String :=
  ["db", "lesson_id", "word", "phonetic_guide", "translation"]

/-- Python call semantics for keyword arguments: the call binds only when
every keyword argument names a declared parameter; otherwise the interpreter
raises `TypeError` before the callee body runs. -/
def callAcceptsKwargs (params kwargs : List String) : Bool :=
  kwargs.all (fun k => params.contains k)

/-- The call `crud.create_vocabulary_item(db=…, lesson_id=…, word=…,
phonetic_guide=…, translation=…)` at main.py lines 144-148, under Python call
semantics: since `translation` is not a parameter of the callee the call
raises `TypeError` and no row is written. -/
def call_create_vocabulary_item_from_pipeline (db : DB) (lesson_id : Nat)
    (word phonetic_guide _translation : Json) :
    Except String (DB × VocabularyItem) :=
  if callAcceptsKwargs create_vocabulary_item_params pipeline_vocab_kwargs then
    Except.ok (create_vocabulary_item db lesson_id word phonetic_guide)
  else
    Except.error
      "TypeError: create_vocabulary_item() got an unexpected keyword argument"

/-- The per-item validity check of the vocabulary loop (main.py line 141):
the item is a dict holding `"word"`. -/
def validVocabItem (j : Json) : Bool :=
  j.isDict && (Json.get? j "word").isSome

/-- The vocabulary save loop (main.py lines 138-152): shape-valid items are
passed to `crud.create_vocabulary_item`; a per-item exception (here the
`TypeError` from the extra `translation` keyword) is caught, logged and
skipped; invalid items are skipped with a warning. Returns the final database
and `saved_vocab_count`. -/
def saveVocabLoop (lid : Nat) (db : DB) : List Json → DB × Nat
  | [] => (db, 0)
  | item :: rest =>
    if validVocabItem item then
      match call_create_vocabulary_item_from_pipeline db lid
          (Json.getD item "word" Json.null)
          (Json.getD item "phonetic_guide" Json.null)
          (Json.getD item "translation" Json.null) with
      | Except.ok p =>
        let r := saveVocabLoop lid p.1 rest
        (r.1, r.2 + 1)
      | Except.error _ => saveVocabLoop lid db rest
    else saveVocabLoop lid db rest

/-- The key-presence check of the question loop (main.py line 158): the item
is a dict holding `question_text`, `options` and `correct_option`. -/
def questionItemHasKeys (j : Json) : Bool :=
  j.isDict && (Json.get? j "question_text").isSome
    && (Json.get? j "options").isSome
    && (Json.get? j "correct_option").isSome

/-- The `isinstance(q_data.get("options"), list)` check at main.py line 159. -/
def questionOptionsIsList (j : Json) : Bool :=
  match Json.get? j "options" with
  | some (Json.arr _) => true
  | _ => false

/-- A question item the loop persists: both checks pass. Note there is no
check that `correct_option` is a member of `options`. -/
def validQuestionItem (j : Json) : Bool :=
  questionItemHasKeys j && questionOptionsIsList j

/-- The `options` list of a question item (empty for the never-persisted
non-list shapes). -/
def questionItemOptions (j : Json) : List Json :=
  match Json.get? j "options" with
  | some (Json.arr opts) => opts
  | _ => []

/-- The comprehension-question save loop (main.py lines 155-171): items that
pass the two checks are persisted via `crud.create_question` with
`question_type="comprehension_mcq"` and the lesson's id; every other item is
skipped with a logged warning and the loop continues. Returns the final
database and `saved_question_count`. -/
def saveQuestionLoop (lid : Nat) (db : DB) : List Json → DB × Nat
  | [] => (db, 0)
  | q :: rest =>
    if questionItemHasKeys q then
      if questionOptionsIsList q then
        let p := create_question db (Json.getD q "question_text" Json.null)
          (questionItemOptions q) (Json.getD q "correct_option" Json.null)
          (some lid) (some "comprehension_mcq")
        let r := saveQuestionLoop lid p.1 rest
        (r.1, r.2 + 1)
      else saveQuestionLoop lid db rest
    else saveQuestionLoop lid db rest

/-- The items of the `comprehension_questions` collection the loop iterates
(empty when the value is absent or not a list, main.py line 156). -/
def questionItemsOf (j : Json) : List Json :=
  match Json.get? j "comprehension_questions" with
  | some (Json.arr xs) => xs
  | _ => []

/-- The items of the `vocabulary_items` collection the loop iterates (empty
when the value is absent or not a list, main.py line 139). -/
def vocabItemsOf (j : Json) : List Json :=
  match Json.get? j "vocabulary_items" with
  | some (Json.arr xs) => xs
  | _ => []

/-- The persistence stage of `main.create_ai_lesson` (main.py lines 130-171):
`crud.create_lesson` on the parsed fields, then the vocabulary and question
save loops. Returns the committed database and the new lesson's id. -/
def create_ai_lesson_save (db : DB) (j : Json) (req_level req_topic : String) :
    DB × Nat :=
  let p := create_lesson db (Json.getD j "title" Json.null)
    (Json.getD j "level" (Json.str req_level))
    (Json.getD j "topic" (Json.str req_topic))
    (Json.getD j "text_passage" Json.null)
  let dv := saveVocabLoop p.2.id p.1 (vocabItemsOf j)
  let dq := saveQuestionLoop p.2.id dv.1 (questionItemsOf j)
  (dq.1, p.2.id)

/-- The inner `try` block of `main.create_ai_lesson` (main.py lines 122-184),
after `json.loads` (modelled by the `loaded` argument; `none` =
`JSONDecodeError`): shape check, the persistence stage, then retrieval of the
saved lesson (lines 173-177). A parse or shape failure raises
`HTTPException(500, "AI response format error: …")` (lines 179-181) with the
database untouched. -/
def create_ai_lesson_inner (db : DB) (loaded : Option Json)
    (req_level req_topic : String) : DB × Except HTTPException LessonResponse :=
  match loaded with
  | none => (db, Except.error ⟨500, "AI response format error"⟩)
  | some j =>
    if shapeOk j then
      let s := create_ai_lesson_save db j req_level req_topic
      match get_lesson s.1 s.2 with
      | none =>
        (s.1, Except.error
          ⟨404, "Failed to retrieve saved lesson data after creation."⟩)
      | some l => (s.1, Except.ok (lessonResponse s.1 l))
    else
      (db, Except.error ⟨500, "AI response format error"⟩)

/-- `POST /lessons` (`main.create_ai_lesson`) as observed by the client: the
whole body sits inside `try: … except Exception as e_api:` (main.py lines
111-189), and an `HTTPException` raised by the inner block — including the
distinct "AI response format error" one — is itself an `Exception`, so the
outer handler catches it and re-raises `HTTPException(500, "Failed to
generate lesson content due to an API error.")`. Database writes already
committed by the inner block persist. -/
def create_ai_lesson (db : DB) (loaded : Option Json)
    (req_level req_topic : String) : DB × Except HTTPException LessonResponse :=
  let p := create_ai_lesson_inner db loaded req_level req_topic
  match p.2 with
  | Except.ok v => (p.1, Except.ok v)
  | Except.error _ =>
    (p.1, Except.error
      ⟨500, "Failed to generate lesson content due to an API error."⟩)

/-! ## Content projections and helper definitions for the theorems -/

/-- The stored content of a `Question` row apart from its generated id. -/
def Question.content (q : Question) :
    Json × List Json × Json × Option Nat × Option String :=
  (q.question_text, q.options, q.correct_option, q.lesson_id, q.question_type)

/-- The stored content of a `UserAnswer` row apart from its generated id. -/
def UserAnswer.content (r : UserAnswer) : Nat × Nat × String × Bool :=
  (r.user_id, r.question_id, r.selected_option, r.is_correct)

/-- The `Question` row content the pipeline persists for a valid question item
of lesson `lid`. -/
def questionRowContent (lid : Nat) (j : Json) :
    Json × List Json × Json × Option Nat × Option String :=
  (Json.getD j "question_text" Json.null, questionItemOptions j,
    Json.getD j "correct_option" Json.null, some lid, some "comprehension_mcq")

/-- Whether a submitted answer's question resolves to a stored `Question`. -/
def answerFound (db : DB) (a : AnswerSubmission) : Bool :=
  (get_question db a.question_id).isSome

/-- Whether a submitted answer resolves to a stored `Question` and matches its
`correct_option` (case-sensitive). -/
def answerCorrect (db : DB) (a : AnswerSubmission) : Bool :=
  match get_question db a.question_id with
  | some q => Json.eqStr q.correct_option a.selected_option
  | none => false

/-- The `UserAnswer` row content `submit_answers` persists for an answer
whose question resolves (`none` for a skipped answer): `is_correct` is fixed
at write time from the question looked up at that moment. -/
def answerRow (db : DB) (u : Nat) (a : AnswerSubmission) :
    Option (Nat × Nat × String × Bool) :=
  match get_question db a.question_id with
  | some q =>
    some (u, a.question_id, a.selected_option,
      Json.eqStr q.correct_option a.selected_option)
  | none => none

/-- The `Lesson` row `create_ai_lesson` persists for parsed value `j`
(request level/topic as defaults, main.py lines 131-134). -/
def newLessonOf (db : DB) (j : Json) (req_level req_topic : String) : Lesson :=
  ⟨db.lessons.length + 1, Json.getD j "title" Json.null,
    Json.getD j "level" (Json.str req_level),
    Json.getD j "topic" (Json.str req_topic),
    Json.getD j "text_passage" Json.null⟩

/-- A sequence of direct `crud.create_vocabulary_item` calls for one lesson:
the data of claim C5's round-trip (word, phonetic_guide pairs). -/
def createVocabScript (lid : Nat) (db : DB) : List (Json × Json) → DB
  | [] => db
  | wv :: rest =>
    createVocabScript lid (create_vocabulary_item db lid wv.1 wv.2).1 rest

/-- A sequence of direct `crud.create_question` calls for one lesson:
(question_text, options, correct_option, question_type) tuples. -/
def createQuestionScript (lid : Nat) (db : DB) :
    List (Json × List Json × Json × Option String) → DB
  | [] => db
  | q :: rest =>
    createQuestionScript lid
      (create_question db q.1 q.2.1 q.2.2.1 (some lid) q.2.2.2).1 rest

/-! ## Concrete inputs used by the witnesses and counterexamples -/

/-- A parsed upstream value whose six required keys are present but whose only
comprehension question is the invalid item `{"bad": 1}`: every question item
fails validation, so zero questions are saved. -/
def upstreamZeroValidQuestions : Json :=
  Json.obj [("title", Json.str "T"), ("level", Json.str "B1"),
    ("topic", Json.str "Cats"), ("text_passage", Json.str "A passage."),
    ("vocabulary_items", Json.arr []),
    ("comprehension_questions", Json.arr [Json.obj [("bad", Json.num 1)]])]

/-- A parsed upstream value whose only comprehension question is shape-valid
but has `correct_option` `"z"` outside its options `["a", "b"]`. -/
def upstreamBadCorrectOption : Json :=
  Json.obj [("title", Json.str "T"), ("level", Json.str "B1"),
    ("topic", Json.str "Cats"), ("text_passage", Json.str "A passage."),
    ("vocabulary_items", Json.arr []),
    ("comprehension_questions", Json.arr
      [Json.obj [("question_text", Json.str "Q"),
        ("options", Json.arr [Json.str "a", Json.str "b"]),
        ("correct_option", Json.str "z")]])]

/-- A fully well-formed parsed upstream value: one complete vocabulary item
(word, phonetic_guide and translation all present) and one valid question. -/
def upstreamWellFormed : Json :=
  Json.obj [("title", Json.str "T"), ("level", Json.str "B1"),
    ("topic", Json.str "Cats"), ("text_passage", Json.str "A passage."),
    ("vocabulary_items", Json.arr
      [Json.obj [("word", Json.str "cat"),
        ("phonetic_guide", Json.str "kat"),
        ("translation", Json.str "gato")]]),
    ("comprehension_questions", Json.arr
      [Json.obj [("question_text", Json.str "Q"),
        ("options", Json.arr [Json.str "a", Json.str "b"]),
        ("correct_option", Json.str "a")]])]

/-- The spec §8 two-item persister input: one valid question and `{"bad": 1}`,
wrapped as the `comprehension_questions` collection of a well-shaped value. -/
def upstreamOneValidOneBad : Json :=
  Json.obj [("title", Json.str "T"), ("level", Json.str "B1"),
    ("topic", Json.str "Cats"), ("text_passage", Json.str "A passage."),
    ("vocabulary_items", Json.arr []),
    ("comprehension_questions", Json.arr
      [Json.obj [("question_text", Json.str "A"),
        ("options", Json.arr [Json.str "a", Json.str "b"]),
        ("correct_option", Json.str "a")],
       Json.obj [("bad", Json.num 1)]])]

/-! ## Helper lemmas -/

/-- `find?` over a list extended with one matching element, when nothing in
the prefix matches: the appended element is found. -/
theorem find?_append_singleton {α : Type} (p : α → Bool) (l : List α) (x : α)
    (h : ∀ a ∈ l, p a = false) (hx : p x = true) :
    (l ++ [x]).find? p = some x := by
  induction l with
  | nil => simp [List.find?, hx]
  | cons a t ih =>
    have ha : p a = false := h a (by simp)
    simp only [List.cons_append, List.find?, ha]
    exact ih (fun b hb => h b (by simp [hb]))

/-! ## Claims about authentication (C9, C10) -/

/-- Claim C9: for every email, registering that email twice yields the
duplicate-email conflict (HTTP 400) on the second attempt, and the second
attempt leaves the database — in particular the `users` table — unchanged. -/
theorem claim_C9_duplicate_email (db : DB) (email p1 p2 : String) :
    register_user (register_user db email p1).1 email p2
      = ((register_user db email p1).1,
        Except.error ⟨400, "Email already registered"⟩) := by
  cases h : get_user_by_email db email with
  | some u =>
    simp [register_user, h]
  | none =>
    have hall : ∀ a ∈ db.users, (fun u : User => u.email == email) a = false := by
      intro a ha
      have := List.find?_eq_none.mp h a ha
      simpa using this
    have hfind : get_user_by_email (create_user db email p1).1 email
        = some ⟨db.users.length + 1, email, hash_password p1⟩ := by
      show List.find? (fun u : User => u.email == email)
        (db.users ++ [⟨db.users.length + 1, email, hash_password p1⟩]) = _
      exact find?_append_singleton (fun u : User => u.email == email) db.users
        ⟨db.users.length + 1, email, hash_password p1⟩ hall (by simp)
    simp only [register_user, h]
    rw [hfind]

/-- Claim C10: for every database in which the email is fresh, registration
succeeds, a subsequent login with the same email and password yields a token,
and decoding that token's `sub` claim through the token service gives back
exactly the registered email. -/
theorem claim_C10_register_login_roundtrip (db : DB) (email password : String)
    (now : Nat) (h : get_user_by_email db email = none) :
    (register_user db email password).2
        = Except.ok ⟨db.users.length + 1, email, hash_password password⟩ ∧
    login_for_access_token (register_user db email password).1 email password
        now = Except.ok (create_access_token [("sub", Json.str email)] now) ∧
    decode_token_sub (create_access_token [("sub", Json.str email)] now)
        = some (Json.str email) := by
  have hall : ∀ a ∈ db.users, (fun u : User => u.email == email) a = false := by
    intro a ha
    have := List.find?_eq_none.mp h a ha
    simpa using this
  have hfind : get_user_by_email (create_user db email password).1 email
      = some ⟨db.users.length + 1, email, hash_password password⟩ := by
    show List.find? (fun u : User => u.email == email)
      (db.users ++ [⟨db.users.length + 1, email, hash_password password⟩]) = _
    exact find?_append_singleton (fun u : User => u.email == email) db.users
      ⟨db.users.length + 1, email, hash_password password⟩ hall (by simp)
  refine ⟨by simp only [register_user, h]; rfl, ?_, ?_⟩
  · simp only [register_user, h, login_for_access_token]
    rw [hfind]
    simp [verify_password]
  · rfl

/-- Witness for C10 at a concrete fresh registration. -/
theorem claim_C10_witness :
    get_user_by_email emptyDB "a@b.com" = none ∧
    ((register_user emptyDB "a@b.com" "pw").2
        = Except.ok ⟨1, "a@b.com", hash_password "pw"⟩ ∧
      login_for_access_token (register_user emptyDB "a@b.com" "pw").1 "a@b.com"
        "pw" 0 = Except.ok (create_access_token [("sub", Json.str "a@b.com")] 0) ∧
      decode_token_sub (create_access_token [("sub", Json.str "a@b.com")] 0)
        = some (Json.str "a@b.com")) :=
  ⟨rfl, claim_C10_register_login_roundtrip emptyDB "a@b.com" "pw" 0 rfl⟩

/-! ## Claim about the parse-failure path (C7) -/

/-- Claim C7: on a `json.loads` failure the pipeline persists nothing (the
database is returned untouched) and the inner handler raises the distinct
HTTP 500 "AI response format error"; but the outer `except Exception` handler
catches that very `HTTPException` and replaces it, so the error the client
receives is the generic "Failed to generate lesson content due to an API
error." — indistinguishable from an AI-service failure. -/
theorem claim_C7_parse_failure (db : DB) (lvl tpc : String) :
    create_ai_lesson_inner db none lvl tpc
      = (db, Except.error ⟨500, "AI response format error"⟩) ∧
    create_ai_lesson db none lvl tpc
      = (db, Except.error
          ⟨500, "Failed to generate lesson content due to an API error."⟩) :=
  ⟨rfl, rfl⟩

/-! ## Behaviour of the save loops -/

/-- The vocabulary save loop is a no-op: every attempted write raises the
`TypeError` from the unexpected `translation` keyword argument, which the
per-item handler swallows, so no row is written and the counter stays 0. -/
theorem saveVocabLoop_eq (lid : Nat) :
    ∀ (items : List Json) (db : DB), saveVocabLoop lid db items = (db, 0) := by
  intro items
  induction items with
  | nil => intro db; rfl
  | cons item rest ih =>
    intro db
    have hcall : call_create_vocabulary_item_from_pipeline db lid
        (Json.getD item "word" Json.null)
        (Json.getD item "phonetic_guide" Json.null)
        (Json.getD item "translation" Json.null)
      = Except.error
        "TypeError: create_vocabulary_item() got an unexpected keyword argument" :=
      rfl
    simp only [saveVocabLoop, hcall]
    by_cases hv : validVocabItem item = true
    · simp [hv, ih]
    · simp [hv, ih]

/-- What the question save loop does to the database: only the `questions`
table changes, the rows appended are exactly the shape-valid items in order,
and the returned counter is their number. -/
theorem saveQuestionLoop_spec (lid : Nat) :
    ∀ (items : List Json) (db : DB),
      (saveQuestionLoop lid db items).1.users = db.users ∧
      (saveQuestionLoop lid db items).1.lessons = db.lessons ∧
      (saveQuestionLoop lid db items).1.vocabulary_items
        = db.vocabulary_items ∧
      (saveQuestionLoop lid db items).1.user_answers = db.user_answers ∧
      (saveQuestionLoop lid db items).1.questions.map Question.content
        = db.questions.map Question.content
          ++ (items.filter validQuestionItem).map (questionRowContent lid) ∧
      (saveQuestionLoop lid db items).2
        = (items.filter validQuestionItem).length := by
  intro items
  induction items with
  | nil => intro db; simp [saveQuestionLoop]
  | cons q rest ih =>
    intro db
    by_cases hk : questionItemHasKeys q = true
    · by_cases hol : questionOptionsIsList q = true
      · have hvalid : validQuestionItem q = true := by
          simp [validQuestionItem, hk, hol]
        obtain ⟨ih1, ih2, ih3, ih4, ih5, ih6⟩ :=
          ih (create_question db (Json.getD q "question_text" Json.null)
            (questionItemOptions q) (Json.getD q "correct_option" Json.null)
            (some lid) (some "comprehension_mcq")).1
        have e5 : (create_question db (Json.getD q "question_text" Json.null)
            (questionItemOptions q) (Json.getD q "correct_option" Json.null)
            (some lid) (some "comprehension_mcq")).1.questions
          = db.questions ++ [⟨db.questions.length + 1,
              Json.getD q "question_text" Json.null, questionItemOptions q,
              Json.getD q "correct_option" Json.null, some lid,
              some "comprehension_mcq"⟩] := rfl
        simp only [saveQuestionLoop, hk, hol, if_true]
        refine ⟨ih1.trans rfl, ih2.trans rfl, ih3.trans rfl, ih4.trans rfl,
          ?_, ?_⟩
        · rw [ih5, e5]
          simp [List.filter_cons, hvalid, Question.content,
            questionRowContent, List.map_append]
        · rw [ih6]
          simp [List.filter_cons, hvalid]
      · have hol2 : questionOptionsIsList q = false := by
          simpa using hol
        have hvalid : validQuestionItem q = false := by
          simp [validQuestionItem, hol2]
        obtain ⟨ih1, ih2, ih3, ih4, ih5, ih6⟩ := ih db
        simp only [saveQuestionLoop, hk, hol2, if_true, Bool.false_eq_true,
          if_false]
        exact ⟨ih1, ih2, ih3, ih4,
          by rw [ih5]; simp [List.filter_cons, hvalid],
          by rw [ih6]; simp [List.filter_cons, hvalid]⟩
    · have hk2 : questionItemHasKeys q = false := by simpa using hk
      have hvalid : validQuestionItem q = false := by
        simp [validQuestionItem, hk2]
      obtain ⟨ih1, ih2, ih3, ih4, ih5, ih6⟩ := ih db
      simp only [saveQuestionLoop, hk2, Bool.false_eq_true, if_false]
      exact ⟨ih1, ih2, ih3, ih4,
        by rw [ih5]; simp [List.filter_cons, hvalid],
        by rw [ih6]; simp [List.filter_cons, hvalid]⟩

/-- `find?` by id over a list extended with a lesson of the sought id finds
some lesson with that id. -/
theorem find?_lesson_append (ls : List Lesson) (x : Lesson) (lid : Nat)
    (hx : x.id = lid) :
    ∃ l, (ls ++ [x]).find? (fun a => a.id == lid) = some l ∧ l.id = lid := by
  induction ls with
  | nil => exact ⟨x, by simp [List.find?, hx], hx⟩
  | cons a t ih =>
    by_cases ha : (a.id == lid) = true
    · exact ⟨a, by simp [List.find?, ha], by simpa using ha⟩
    · have ha2 : (a.id == lid) = false := by simpa using ha
      obtain ⟨l, hl1, hl2⟩ := ih
      exact ⟨l, by simp only [List.cons_append, List.find?, ha2]; exact hl1,
        hl2⟩

/-- What the persistence stage commits: the new lesson id is
`db.lessons.length + 1`; users, vocabulary items and user answers are
unchanged (every vocabulary write dies on the `TypeError`); exactly one
lesson row and exactly the shape-valid question rows are appended. -/
theorem create_ai_lesson_save_spec (db : DB) (j : Json) (lvl tpc : String) :
    (create_ai_lesson_save db j lvl tpc).2 = db.lessons.length + 1 ∧
    (create_ai_lesson_save db j lvl tpc).1.users = db.users ∧
    (create_ai_lesson_save db j lvl tpc).1.lessons
      = db.lessons ++ [newLessonOf db j lvl tpc] ∧
    (create_ai_lesson_save db j lvl tpc).1.vocabulary_items
      = db.vocabulary_items ∧
    (create_ai_lesson_save db j lvl tpc).1.user_answers = db.user_answers ∧
    (create_ai_lesson_save db j lvl tpc).1.questions.map Question.content
      = db.questions.map Question.content
        ++ ((questionItemsOf j).filter validQuestionItem).map
            (questionRowContent (db.lessons.length + 1)) := by
  obtain ⟨sp1, sp2, sp3, sp4, sp5, sp6⟩ :=
    saveQuestionLoop_spec (db.lessons.length + 1) (questionItemsOf j)
      (create_lesson db (Json.getD j "title" Json.null)
        (Json.getD j "level" (Json.str lvl))
        (Json.getD j "topic" (Json.str tpc))
        (Json.getD j "text_passage" Json.null)).1
  simp only [create_ai_lesson_save, saveVocabLoop_eq]
  exact ⟨rfl, sp1.trans rfl, sp2.trans rfl, sp3.trans rfl, sp4.trans rfl,
    sp5.trans (by rfl)⟩

/-- When the parsed value passes the shape check, the pipeline always reaches
the success path: the committed tables are those of the persistence stage and
the response is the saved lesson serialized with its related rows. There is
no check of the save counters — the operation succeeds no matter how many
items were skipped. -/
theorem create_ai_lesson_inner_spec (db : DB) (j : Json) (lvl tpc : String)
    (h : shapeOk j = true) :
    (create_ai_lesson_inner db (some j) lvl tpc).1
      = (create_ai_lesson_save db j lvl tpc).1 ∧
    ∃ resp, (create_ai_lesson_inner db (some j) lvl tpc).2 = Except.ok resp ∧
      resp.id = db.lessons.length + 1 ∧
      resp.vocabulary_items
        = lesson_vocabulary_items (create_ai_lesson_save db j lvl tpc).1
            (db.lessons.length + 1) ∧
      resp.questions
        = lesson_questions (create_ai_lesson_save db j lvl tpc).1
            (db.lessons.length + 1) := by
  obtain ⟨hs2, _, hles, _, _, _⟩ := create_ai_lesson_save_spec db j lvl tpc
  obtain ⟨l, hfind, hlid⟩ := find?_lesson_append db.lessons
    (newLessonOf db j lvl tpc) (db.lessons.length + 1) rfl
  have hget : get_lesson (create_ai_lesson_save db j lvl tpc).1
      (create_ai_lesson_save db j lvl tpc).2 = some l := by
    rw [get_lesson, hles, hs2]
    exact hfind
  have hinner : create_ai_lesson_inner db (some j) lvl tpc
      = ((create_ai_lesson_save db j lvl tpc).1,
        Except.ok (lessonResponse (create_ai_lesson_save db j lvl tpc).1 l)) := by
    simp only [create_ai_lesson_inner, h, if_true, hget]
  refine ⟨by rw [hinner],
    lessonResponse (create_ai_lesson_save db j lvl tpc).1 l,
    by rw [hinner], ?_, ?_, ?_⟩
  · simpa [lessonResponse] using hlid
  · simp [lessonResponse, hlid]
  · simp [lessonResponse, hlid]

/-- The committed database of `POST /lessons` is that of the inner block: the
outer handler only replaces the error value, never the state. -/
theorem create_ai_lesson_fst (db : DB) (loaded : Option Json)
    (lvl tpc : String) :
    (create_ai_lesson db loaded lvl tpc).1
      = (create_ai_lesson_inner db loaded lvl tpc).1 := by
  simp only [create_ai_lesson]
  cases h : (create_ai_lesson_inner db loaded lvl tpc).2 <;> simp [h]

/-- A success of the inner block passes through the outer handler intact. -/
theorem create_ai_lesson_ok (db : DB) (loaded : Option Json)
    (lvl tpc : String) (resp : LessonResponse)
    (h : (create_ai_lesson_inner db loaded lvl tpc).2 = Except.ok resp) :
    (create_ai_lesson db loaded lvl tpc).2 = Except.ok resp := by
  simp only [create_ai_lesson, h]

/-! ## Claims about the lesson pipeline (C1, C3, C4, C6) -/

/-- Counterexample to claim C1 as stated: a run in which the mandatory
comprehension-question collection saves zero items (its only candidate is the
invalid `{"bad": 1}`), yet the operation succeeds — it does not fail with a
reported error as the claim demands. -/
theorem claim_C1_counterexample :
    (create_ai_lesson emptyDB (some upstreamZeroValidQuestions) "B1"
      "Cats").1.questions = [] ∧
    ∃ resp, (create_ai_lesson emptyDB (some upstreamZeroValidQuestions) "B1"
      "Cats").2 = Except.ok resp :=
  ⟨rfl, ⟨_, rfl⟩⟩

/-- Claim C1 amended: after iterating all candidate items there is no check
of any success counter — whenever the parsed value passes the shape check the
operation succeeds with the possibly-partial result set, even when every
question item failed and zero rows of the mandatory collection were saved. -/
theorem claim_C1_no_zero_success_failure (db : DB) (j : Json)
    (lvl tpc : String) (hshape : shapeOk j = true)
    (hnone : (questionItemsOf j).all (fun q => !validQuestionItem q) = true) :
    (∃ resp, (create_ai_lesson db (some j) lvl tpc).2 = Except.ok resp) ∧
    (create_ai_lesson db (some j) lvl tpc).1.questions.map Question.content
      = db.questions.map Question.content := by
  obtain ⟨h1, resp, h2, _, _, _⟩ :=
    create_ai_lesson_inner_spec db j lvl tpc hshape
  have hfilter : (questionItemsOf j).filter validQuestionItem = [] := by
    rw [List.filter_eq_nil_iff]
    intro a ha
    have := List.all_eq_true.mp hnone a ha
    simpa using this
  obtain ⟨_, _, _, _, _, hq⟩ := create_ai_lesson_save_spec db j lvl tpc
  refine ⟨⟨resp, create_ai_lesson_ok db (some j) lvl tpc resp h2⟩, ?_⟩
  rw [create_ai_lesson_fst, h1, hq, hfilter]
  simp

/-- Witness for the amended C1 at the concrete zero-valid-questions input. -/
theorem claim_C1_no_zero_success_failure_witness :
    shapeOk upstreamZeroValidQuestions = true ∧
    (questionItemsOf upstreamZeroValidQuestions).all
      (fun q => !validQuestionItem q) = true ∧
    ((∃ resp, (create_ai_lesson emptyDB (some upstreamZeroValidQuestions)
        "B1" "Cats").2 = Except.ok resp) ∧
      (create_ai_lesson emptyDB (some upstreamZeroValidQuestions) "B1"
        "Cats").1.questions.map Question.content
        = emptyDB.questions.map Question.content) :=
  ⟨rfl, rfl,
    claim_C1_no_zero_success_failure emptyDB upstreamZeroValidQuestions
      "B1" "Cats" rfl rfl⟩

/-- Counterexample to claim C3 as stated: the pipeline persists a question
whose `correct_option` (`"z"`) is not a member of its `options`
(`["a", "b"]`) and still reports success — no layer enforces the membership
invariant. -/
theorem claim_C3_counterexample :
    (create_ai_lesson emptyDB (some upstreamBadCorrectOption) "B1"
        "Cats").1.questions.map Question.content
      = [(Json.str "Q", [Json.str "a", Json.str "b"], Json.str "z", some 1,
          some "comprehension_mcq")] ∧
    jsonMem (Json.str "z") [Json.str "a", Json.str "b"] = false ∧
    ∃ resp, (create_ai_lesson emptyDB (some upstreamBadCorrectOption) "B1"
      "Cats").2 = Except.ok resp :=
  ⟨rfl, rfl, ⟨_, rfl⟩⟩

/-- Claim C3 amended: neither the generation pipeline (which checks only key
presence and that `options` is a list) nor the storage layer enforces that
`correct_option` is a member of `options`; a shape-valid question item is
persisted unchanged even when its `correct_option` lies outside its
`options`. -/
theorem claim_C3_membership_not_enforced (db : DB) (j q : Json)
    (lvl tpc : String) (hshape : shapeOk j = true)
    (hitems : questionItemsOf j = [q])
    (hvalid : validQuestionItem q = true)
    (hmem : jsonMem (Json.getD q "correct_option" Json.null)
      (questionItemOptions q) = false) :
    (create_ai_lesson db (some j) lvl tpc).1.questions.map Question.content
      = db.questions.map Question.content
        ++ [questionRowContent (db.lessons.length + 1) q] ∧
    ∃ resp, (create_ai_lesson db (some j) lvl tpc).2 = Except.ok resp := by
  obtain ⟨h1, resp, h2, _, _, _⟩ :=
    create_ai_lesson_inner_spec db j lvl tpc hshape
  obtain ⟨_, _, _, _, _, hq⟩ := create_ai_lesson_save_spec db j lvl tpc
  refine ⟨?_, ⟨resp, create_ai_lesson_ok db (some j) lvl tpc resp h2⟩⟩
  rw [create_ai_lesson_fst, h1, hq, hitems]
  simp [List.filter_cons, hvalid]

/-- Witness for the amended C3 at the concrete out-of-options input. -/
theorem claim_C3_membership_not_enforced_witness :
    shapeOk upstreamBadCorrectOption = true ∧
    questionItemsOf upstreamBadCorrectOption
      = [Json.obj [("question_text", Json.str "Q"),
          ("options", Json.arr [Json.str "a", Json.str "b"]),
          ("correct_option", Json.str "z")]] ∧
    validQuestionItem (Json.obj [("question_text", Json.str "Q"),
      ("options", Json.arr [Json.str "a", Json.str "b"]),
      ("correct_option", Json.str "z")]) = true ∧
    ((create_ai_lesson emptyDB (some upstreamBadCorrectOption) "B1"
        "Cats").1.questions.map Question.content
      = emptyDB.questions.map Question.content
        ++ [questionRowContent (emptyDB.lessons.length + 1)
            (Json.obj [("question_text", Json.str "Q"),
              ("options", Json.arr [Json.str "a", Json.str "b"]),
              ("correct_option", Json.str "z")])] ∧
    ∃ resp, (create_ai_lesson emptyDB (some upstreamBadCorrectOption) "B1"
      "Cats").2 = Except.ok resp) :=
  ⟨rfl, rfl, rfl,
    claim_C3_membership_not_enforced emptyDB upstreamBadCorrectOption
      (Json.obj [("question_text", Json.str "Q"),
        ("options", Json.arr [Json.str "a", Json.str "b"]),
        ("correct_option", Json.str "z")]) "B1" "Cats" rfl rfl rfl rfl⟩

/-- Claim C4: for any database (whose existing vocabulary rows do not already
reference the about-to-be-issued lesson id) and any parsed value passing the
shape check — however well-formed its vocabulary items — `POST /lessons`
persists zero vocabulary items and returns the lesson with an empty
`vocabulary_items` list: every `crud.create_vocabulary_item` call dies on the
`TypeError` from the unexpected `translation` keyword argument. -/
theorem claim_C4_vocabulary_never_persisted (db : DB) (j : Json)
    (lvl tpc : String) (hshape : shapeOk j = true)
    (hfresh : ∀ v ∈ db.vocabulary_items,
      v.lesson_id ≠ db.lessons.length + 1) :
    (create_ai_lesson db (some j) lvl tpc).1.vocabulary_items
      = db.vocabulary_items ∧
    ∃ resp, (create_ai_lesson db (some j) lvl tpc).2 = Except.ok resp ∧
      resp.vocabulary_items = [] := by
  obtain ⟨h1, resp, h2, _, hv, _⟩ :=
    create_ai_lesson_inner_spec db j lvl tpc hshape
  obtain ⟨_, _, _, hvi, _, _⟩ := create_ai_lesson_save_spec db j lvl tpc
  refine ⟨by rw [create_ai_lesson_fst, h1, hvi],
    ⟨resp, create_ai_lesson_ok db (some j) lvl tpc resp h2, ?_⟩⟩
  rw [hv, lesson_vocabulary_items, hvi, List.filter_eq_nil_iff]
  intro v hvmem
  have := hfresh v hvmem
  simpa using this

/-- Witness for C4 at the fully well-formed upstream value (one complete
vocabulary item with word, phonetic guide and translation). -/
theorem claim_C4_vocabulary_never_persisted_witness :
    shapeOk upstreamWellFormed = true ∧
    (∀ v ∈ emptyDB.vocabulary_items, v.lesson_id ≠ emptyDB.lessons.length + 1) ∧
    ((create_ai_lesson emptyDB (some upstreamWellFormed) "B1"
        "Cats").1.vocabulary_items = emptyDB.vocabulary_items ∧
      ∃ resp, (create_ai_lesson emptyDB (some upstreamWellFormed) "B1"
        "Cats").2 = Except.ok resp ∧ resp.vocabulary_items = []) :=
  ⟨rfl, fun v hv => absurd hv (List.not_mem_nil v),
    claim_C4_vocabulary_never_persisted emptyDB upstreamWellFormed "B1" "Cats"
      rfl (fun v hv => absurd hv (List.not_mem_nil v))⟩

/-- Claim C6: for every list of candidate question items, the persister
stores exactly the shape-valid items (in order) and skips each invalid one,
continuing with the rest; the batch never aborts — the operation still
reports success. -/
theorem claim_C6_partial_persistence (db : DB) (j : Json) (lvl tpc : String)
    (hshape : shapeOk j = true) :
    (create_ai_lesson db (some j) lvl tpc).1.questions.map Question.content
      = db.questions.map Question.content
        ++ ((questionItemsOf j).filter validQuestionItem).map
            (questionRowContent (db.lessons.length + 1)) ∧
    ∃ resp, (create_ai_lesson db (some j) lvl tpc).2 = Except.ok resp := by
  obtain ⟨h1, resp, h2, _, _, _⟩ :=
    create_ai_lesson_inner_spec db j lvl tpc hshape
  obtain ⟨_, _, _, _, _, hq⟩ := create_ai_lesson_save_spec db j lvl tpc
  exact ⟨by rw [create_ai_lesson_fst, h1, hq],
    ⟨resp, create_ai_lesson_ok db (some j) lvl tpc resp h2⟩⟩

/-- Witness for C6 at the spec's two-item input (one valid question and
`{"bad": 1}`): exactly the one valid question is stored and the operation
succeeds. -/
theorem claim_C6_partial_persistence_witness :
    shapeOk upstreamOneValidOneBad = true ∧
    ((create_ai_lesson emptyDB (some upstreamOneValidOneBad) "B1"
        "Cats").1.questions.map Question.content
      = [(Json.str "A", [Json.str "a", Json.str "b"], Json.str "a", some 1,
          some "comprehension_mcq")] ∧
      ∃ resp, (create_ai_lesson emptyDB (some upstreamOneValidOneBad) "B1"
        "Cats").2 = Except.ok resp) := by
  refine ⟨rfl, ?_⟩
  have h := claim_C6_partial_persistence emptyDB upstreamOneValidOneBad
    "B1" "Cats" rfl
  exact ⟨h.1.trans rfl, h.2⟩

/-! ## Behaviour of the answer-submission loop -/

/-- What the answer loop does: only `user_answers` changes; the appended rows
are exactly those of the answers whose question resolves, with `is_correct`
fixed at write time; the processed and correct counters count resolvable and
resolvable-and-matching answers respectively. -/
theorem submitLoop_spec (u : Nat) :
    ∀ (answers : List AnswerSubmission) (db : DB),
      (submitLoop u db answers).1.users = db.users ∧
      (submitLoop u db answers).1.lessons = db.lessons ∧
      (submitLoop u db answers).1.vocabulary_items = db.vocabulary_items ∧
      (submitLoop u db answers).1.questions = db.questions ∧
      (submitLoop u db answers).1.user_answers.map UserAnswer.content
        = db.user_answers.map UserAnswer.content
          ++ answers.filterMap (answerRow db u) ∧
      (submitLoop u db answers).2.2
        = (answers.filter (answerFound db)).length ∧
      (submitLoop u db answers).2.1
        = (answers.filter (answerCorrect db)).length := by
  intro answers
  induction answers with
  | nil => intro db; simp [submitLoop]
  | cons a rest ih =>
    intro db
    cases hq : get_question db a.question_id with
    | none =>
      have hrow : answerRow db u a = none := by simp [answerRow, hq]
      have hfound : answerFound db a = false := by simp [answerFound, hq]
      have hcorr : answerCorrect db a = false := by simp [answerCorrect, hq]
      obtain ⟨ih1, ih2, ih3, ih4, ih5, ih6, ih7⟩ := ih db
      simp only [submitLoop, hq]
      exact ⟨ih1, ih2, ih3, ih4,
        by rw [ih5]; simp [List.filterMap_cons, hrow],
        by rw [ih6]; simp [List.filter_cons, hfound],
        by rw [ih7]; simp [List.filter_cons, hcorr]⟩
    | some q =>
      have hrow : answerRow db u a
          = some (u, a.question_id, a.selected_option,
              Json.eqStr q.correct_option a.selected_option) := by
        simp [answerRow, hq]
      have hfound : answerFound db a = true := by simp [answerFound, hq]
      have hcorr : answerCorrect db a
          = Json.eqStr q.correct_option a.selected_option := by
        simp [answerCorrect, hq]
      obtain ⟨ih1, ih2, ih3, ih4, ih5, ih6, ih7⟩ :=
        ih (create_user_answer db u a.question_id a.selected_option
          (Json.eqStr q.correct_option a.selected_option)).1
      have hsame : ∀ b : AnswerSubmission,
          get_question (create_user_answer db u a.question_id
            a.selected_option
            (Json.eqStr q.correct_option a.selected_option)).1 b.question_id
          = get_question db b.question_id := by
        intro b; rfl
      have hrowf : answerRow (create_user_answer db u a.question_id
          a.selected_option
          (Json.eqStr q.correct_option a.selected_option)).1 u
          = answerRow db u := by
        funext b; simp [answerRow, hsame b]
      have hfoundf : answerFound (create_user_answer db u a.question_id
          a.selected_option
          (Json.eqStr q.correct_option a.selected_option)).1
          = answerFound db := by
        funext b; simp [answerFound, hsame b]
      have hcorrf : answerCorrect (create_user_answer db u a.question_id
          a.selected_option
          (Json.eqStr q.correct_option a.selected_option)).1
          = answerCorrect db := by
        funext b; simp [answerCorrect, hsame b]
      rw [hrowf] at ih5
      rw [hfoundf] at ih6
      rw [hcorrf] at ih7
      simp only [submitLoop, hq]
      refine ⟨ih1.trans rfl, ih2.trans rfl, ih3.trans rfl, ih4.trans rfl,
        ?_, ?_, ?_⟩
      · rw [ih5]
        have e : (create_user_answer db u a.question_id a.selected_option
            (Json.eqStr q.correct_option a.selected_option)).1.user_answers
          = db.user_answers ++ [⟨db.user_answers.length + 1, u,
              a.question_id, a.selected_option,
              Json.eqStr q.correct_option a.selected_option⟩] := rfl
        rw [e]
        simp [List.filterMap_cons, hrow, UserAnswer.content,
          List.map_append]
      · rw [ih6]
        simp [List.filter_cons, hfound]
      · rw [ih7]
        by_cases hic : Json.eqStr q.correct_option a.selected_option = true
        · simp [List.filter_cons, hcorr, hic]
        · have hic2 : Json.eqStr q.correct_option a.selected_option
              = false := by simpa using hic
          simp [List.filter_cons, hcorr, hic2]

/-! ## Claims about quiz scoring (C2, C8) -/

/-- Claim C2: quiz scoring skips every answer whose question id does not
resolve, excluding it from both the score and `total_questions`:
`total_questions` is the number of submitted pairs whose question was found
(not the number submitted) and `score` the number of found pairs matching
their question's `correct_option`. In particular a single answer for a
nonexistent question yields `{score: 0, total_questions: 0}` with the
database unchanged. -/
theorem claim_C2_skip_missing_questions :
    (∀ (db : DB) (u : Nat) (answers : List AnswerSubmission),
      (submit_answers db u answers).2
        = ⟨(answers.filter (answerCorrect db)).length,
            (answers.filter (answerFound db)).length⟩) ∧
    (∀ (db : DB) (u qid : Nat) (s : String), get_question db qid = none →
      submit_answers db u [⟨qid, s⟩] = (db, ⟨0, 0⟩)) := by
  constructor
  · intro db u answers
    cases answers with
    | nil => simp [submit_answers]
    | cons a rest =>
      obtain ⟨_, _, _, _, _, ih6, ih7⟩ := submitLoop_spec u (a :: rest) db
      simp only [submit_answers, List.length_cons]
      rw [if_neg (by simp)]
      rw [ih6, ih7]
  · intro db u qid s h
    simp [submit_answers, submitLoop, h]

/-- Witness for C2's skipped-question case at a concrete nonexistent id. -/
theorem claim_C2_skip_missing_questions_witness :
    get_question emptyDB 5 = none ∧
    submit_answers emptyDB 1 [⟨5, "a"⟩] = (emptyDB, ⟨0, 0⟩) :=
  ⟨rfl, claim_C2_skip_missing_questions.2 emptyDB 1 5 "a" rfl⟩

/-- Claim C8: the `UserAnswer` rows written during a submission are exactly
one per resolvable answer, each carrying `is_correct` computed once at write
time as the case-sensitive string equality of `selected_option` with the
question's stored `correct_option` (`answerRow`); every previously stored
row's content is left untouched — nothing is ever recomputed. -/
theorem claim_C8_is_correct_write_once (db : DB) (u : Nat)
    (answers : List AnswerSubmission) :
    (submit_answers db u answers).1.user_answers.map UserAnswer.content
      = db.user_answers.map UserAnswer.content
        ++ answers.filterMap (answerRow db u) := by
  cases answers with
  | nil => simp [submit_answers]
  | cons a rest =>
    obtain ⟨_, _, _, _, ih5, _, _⟩ := submitLoop_spec u (a :: rest) db
    simp only [submit_answers, List.length_cons]
    rw [if_neg (by simp)]
    exact ih5

/-! ## Claim C5: data-access-layer round-trip -/

/-- A fresh lesson with `vs` vocabulary items and `qs` questions persisted
through the create functions: `crud.create_lesson`, then one
`crud.create_vocabulary_item` per pair and one `crud.create_question` per
tuple. Returns the final database and the lesson id. -/
def lessonRoundTrip (db : DB) (title level topic tx : Json)
    (vs : List (Json × Json))
    (qs : List (Json × List Json × Json × Option String)) : DB × Nat :=
  let p := create_lesson db title level topic tx
  let db1 := createVocabScript p.2.id p.1 vs
  (createQuestionScript p.2.id db1 qs, p.2.id)

/-- What the vocabulary script commits: only `vocabulary_items` changes, and
the lesson's related vocabulary rows gain exactly the given pairs in order. -/
theorem createVocabScript_spec (lid : Nat) :
    ∀ (vs : List (Json × Json)) (db : DB),
      (createVocabScript lid db vs).users = db.users ∧
      (createVocabScript lid db vs).lessons = db.lessons ∧
      (createVocabScript lid db vs).questions = db.questions ∧
      (createVocabScript lid db vs).user_answers = db.user_answers ∧
      (lesson_vocabulary_items (createVocabScript lid db vs) lid).map
          (fun v => (v.word, v.phonetic_guide))
        = (lesson_vocabulary_items db lid).map
            (fun v => (v.word, v.phonetic_guide)) ++ vs := by
  intro vs
  induction vs with
  | nil => intro db; simp [createVocabScript]
  | cons wv rest ih =>
    intro db
    obtain ⟨ih1, ih2, ih3, ih4, ih5⟩ :=
      ih (create_vocabulary_item db lid wv.1 wv.2).1
    have e : (create_vocabulary_item db lid wv.1 wv.2).1.vocabulary_items
        = db.vocabulary_items
          ++ [⟨db.vocabulary_items.length + 1, lid, wv.1, wv.2,
              Json.null⟩] := rfl
    refine ⟨ih1.trans rfl, ih2.trans rfl, ih3.trans rfl, ih4.trans rfl, ?_⟩
    simp only [createVocabScript]
    rw [ih5]
    simp only [lesson_vocabulary_items, e, List.filter_append]
    simp

/-- What the question script commits: only `questions` changes, and the
lesson's related question rows gain exactly the given tuples in order. -/
theorem createQuestionScript_spec (lid : Nat) :
    ∀ (qs : List (Json × List Json × Json × Option String)) (db : DB),
      (createQuestionScript lid db qs).users = db.users ∧
      (createQuestionScript lid db qs).lessons = db.lessons ∧
      (createQuestionScript lid db qs).vocabulary_items
        = db.vocabulary_items ∧
      (createQuestionScript lid db qs).user_answers = db.user_answers ∧
      (lesson_questions (createQuestionScript lid db qs) lid).map
          (fun q => (q.question_text, q.options, q.correct_option,
            q.question_type))
        = (lesson_questions db lid).map
            (fun q => (q.question_text, q.options, q.correct_option,
              q.question_type)) ++ qs := by
  intro qs
  induction qs with
  | nil => intro db; simp [createQuestionScript]
  | cons t rest ih =>
    intro db
    obtain ⟨ih1, ih2, ih3, ih4, ih5⟩ :=
      ih (create_question db t.1 t.2.1 t.2.2.1 (some lid) t.2.2.2).1
    have e : (create_question db t.1 t.2.1 t.2.2.1 (some lid)
        t.2.2.2).1.questions
        = db.questions ++ [⟨db.questions.length + 1, t.1, t.2.1, t.2.2.1,
            some lid, t.2.2.2⟩] := rfl
    refine ⟨ih1.trans rfl, ih2.trans rfl, ih3.trans rfl, ih4.trans rfl, ?_⟩
    simp only [createQuestionScript]
    rw [ih5]
    simp only [lesson_questions, e, List.filter_append]
    simp

/-- Claim C5: a lesson created with N vocabulary items and M questions via
the create functions, retrieved by its id, returns exactly those N
vocabulary items and M questions in insertion order (the freshness
hypotheses say the about-to-be-issued id is not already referenced). -/
theorem claim_C5_roundtrip (db : DB) (title level topic tx : Json)
    (vs : List (Json × Json))
    (qs : List (Json × List Json × Json × Option String))
    (hl : ∀ l ∈ db.lessons, l.id ≠ db.lessons.length + 1)
    (hv : ∀ v ∈ db.vocabulary_items, v.lesson_id ≠ db.lessons.length + 1)
    (hq : ∀ q ∈ db.questions, q.lesson_id ≠ some (db.lessons.length + 1)) :
    get_lesson (lessonRoundTrip db title level topic tx vs qs).1
        (lessonRoundTrip db title level topic tx vs qs).2
      = some ⟨db.lessons.length + 1, title, level, topic, tx⟩ ∧
    (lesson_vocabulary_items (lessonRoundTrip db title level topic tx vs qs).1
        (lessonRoundTrip db title level topic tx vs qs).2).map
        (fun v => (v.word, v.phonetic_guide)) = vs ∧
    (lesson_questions (lessonRoundTrip db title level topic tx vs qs).1
        (lessonRoundTrip db title level topic tx vs qs).2).map
        (fun q => (q.question_text, q.options, q.correct_option,
          q.question_type)) = qs := by
  obtain ⟨v1, v2, v3, v4, v5⟩ := createVocabScript_spec (db.lessons.length + 1)
    vs (create_lesson db title level topic tx).1
  obtain ⟨q1, q2, q3, q4, q5⟩ := createQuestionScript_spec
    (db.lessons.length + 1) qs
    (createVocabScript (db.lessons.length + 1)
      (create_lesson db title level topic tx).1 vs)
  have hvempty : lesson_vocabulary_items
      (create_lesson db title level topic tx).1 (db.lessons.length + 1)
      = [] := by
    rw [lesson_vocabulary_items, List.filter_eq_nil_iff]
    intro v hvm
    have : v ∈ db.vocabulary_items := hvm
    have := hv v this
    simpa using this
  have hqempty : lesson_questions
      (createVocabScript (db.lessons.length + 1)
        (create_lesson db title level topic tx).1 vs)
      (db.lessons.length + 1) = [] := by
    rw [lesson_questions, List.filter_eq_nil_iff]
    intro q hqm
    rw [v3] at hqm
    have : q ∈ db.questions := hqm
    have := hq q this
    simpa using this
  refine ⟨?_, ?_, ?_⟩
  · show get_lesson (createQuestionScript (db.lessons.length + 1)
      (createVocabScript (db.lessons.length + 1)
        (create_lesson db title level topic tx).1 vs) qs)
      (db.lessons.length + 1) = _
    rw [get_lesson, q2, v2]
    have hall : ∀ a ∈ db.lessons,
        (fun l : Lesson => l.id == db.lessons.length + 1) a = false := by
      intro a ha
      have := hl a ha
      simpa using this
    exact find?_append_singleton
      (fun l : Lesson => l.id == db.lessons.length + 1) db.lessons
      ⟨db.lessons.length + 1, title, level, topic, tx⟩ hall (by simp)
  · show (lesson_vocabulary_items (createQuestionScript (db.lessons.length + 1)
      (createVocabScript (db.lessons.length + 1)
        (create_lesson db title level topic tx).1 vs) qs)
      (db.lessons.length + 1)).map (fun v => (v.word, v.phonetic_guide)) = vs
    have : lesson_vocabulary_items (createQuestionScript (db.lessons.length + 1)
        (createVocabScript (db.lessons.length + 1)
          (create_lesson db title level topic tx).1 vs) qs)
        (db.lessons.length + 1)
        = lesson_vocabulary_items (createVocabScript (db.lessons.length + 1)
          (create_lesson db title level topic tx).1 vs)
          (db.lessons.length + 1) := by
      rw [lesson_vocabulary_items, lesson_vocabulary_items, q3]
    rw [this, v5, hvempty]
    simp
  · show (lesson_questions (createQuestionScript (db.lessons.length + 1)
      (createVocabScript (db.lessons.length + 1)
        (create_lesson db title level topic tx).1 vs) qs)
      (db.lessons.length + 1)).map
      (fun q => (q.question_text, q.options, q.correct_option,
        q.question_type)) = qs
    rw [q5, hqempty]
    simp

/-- Witness for C5 at a concrete one-item, one-question round-trip from an
empty database. -/
theorem claim_C5_roundtrip_witness :
    (∀ l ∈ emptyDB.lessons, l.id ≠ emptyDB.lessons.length + 1) ∧
    (∀ v ∈ emptyDB.vocabulary_items,
      v.lesson_id ≠ emptyDB.lessons.length + 1) ∧
    (∀ q ∈ emptyDB.questions,
      q.lesson_id ≠ some (emptyDB.lessons.length + 1)) ∧
    (get_lesson (lessonRoundTrip emptyDB (Json.str "T") (Json.str "B1")
        (Json.str "Cats") (Json.str "P") [(Json.str "cat", Json.str "kat")]
        [(Json.str "Q", [Json.str "a"], Json.str "a",
          some "comprehension_mcq")]).1
      (lessonRoundTrip emptyDB (Json.str "T") (Json.str "B1")
        (Json.str "Cats") (Json.str "P") [(Json.str "cat", Json.str "kat")]
        [(Json.str "Q", [Json.str "a"], Json.str "a",
          some "comprehension_mcq")]).2
      = some ⟨emptyDB.lessons.length + 1, Json.str "T", Json.str "B1",
          Json.str "Cats", Json.str "P"⟩ ∧
    (lesson_vocabulary_items (lessonRoundTrip emptyDB (Json.str "T")
        (Json.str "B1") (Json.str "Cats") (Json.str "P")
        [(Json.str "cat", Json.str "kat")]
        [(Json.str "Q", [Json.str "a"], Json.str "a",
          some "comprehension_mcq")]).1
      (lessonRoundTrip emptyDB (Json.str "T") (Json.str "B1")
        (Json.str "Cats") (Json.str "P") [(Json.str "cat", Json.str "kat")]
        [(Json.str "Q", [Json.str "a"], Json.str "a",
          some "comprehension_mcq")]).2).map
        (fun v => (v.word, v.phonetic_guide))
      = [(Json.str "cat", Json.str "kat")] ∧
    (lesson_questions (lessonRoundTrip emptyDB (Json.str "T") (Json.str "B1")
        (Json.str "Cats") (Json.str "P") [(Json.str "cat", Json.str "kat")]
        [(Json.str "Q", [Json.str "a"], Json.str "a",
          some "comprehension_mcq")]).1
      (lessonRoundTrip emptyDB (Json.str "T") (Json.str "B1")
        (Json.str "Cats") (Json.str "P") [(Json.str "cat", Json.str "kat")]
        [(Json.str "Q", [Json.str "a"], Json.str "a",
          some "comprehension_mcq")]).2).map
        (fun q => (q.question_text, q.options, q.correct_option,
          q.question_type))
      = [(Json.str "Q", [Json.str "a"], Json.str "a",
          some "comprehension_mcq")]) :=
  ⟨fun x hx => absurd hx (List.not_mem_nil x),
    fun x hx => absurd hx (List.not_mem_nil x),
    fun x hx => absurd hx (List.not_mem_nil x),
    claim_C5_roundtrip emptyDB (Json.str "T") (Json.str "B1")
      (Json.str "Cats") (Json.str "P") [(Json.str "cat", Json.str "kat")]
      [(Json.str "Q", [Json.str "a"], Json.str "a",
        some "comprehension_mcq")]
      (fun x hx => absurd hx (List.not_mem_nil x))
      (fun x hx => absurd hx (List.not_mem_nil x))
      (fun x hx => absurd hx (List.not_mem_nil x))⟩
